import Mathlib

/-!
Verification of the OrganChain donation registry.

Two embeddings, both translated from the source:
* namespace `Chain` — the Go chaincode (`chaincode/organchain/organchain.go`):
  typed Patient/Donor/Hospital/Match records, the world-state key-value store,
  and the ledger operations (`CreatePatient`, `CreateDonor`, `VerifyDonor`,
  `UpdateDonorStatus`, `CreateMatch`, `UpdatePatientStatus`, `ClearLedger`,
  `AuthenticateHospital`, `GetDonor`, `GetAllDonors`, `GetAllHospitals`).
* namespace `Front` — the React matching engine (`canReceiveFrom` and the
  per-donor scoring body of `runMatching`), with JavaScript string splitting
  and trimming embedded as structurally recursive functions.

Modelling notes.
* The world state is an association list of key/record pairs; `putState`
  replaces the record stored under a key (listing order is not relied upon by
  any theorem).  Records are stored typed: the Go code stores JSON bytes and
  decodes them field-wise, so reading a key of the wrong record type is
  treated here as "record absent", matching the prefix-namespaced use of keys
  (`PAT-`, `DON-`, `HOSP-`, `MATCH-`) throughout the repository.
* `Donor.organsAvailable` is an `Option (List String)`: `none` models a JSON
  `null` (Go `nil` slice), which the read paths normalise to the empty list.
* Timestamps (`time.Now().Format(...)`) enter the operations as an explicit
  `now : String` argument.  JavaScript date subtraction enters the scoring
  function as an explicit `daysWaiting : ℚ` argument.
* JavaScript numbers are embedded as exact rationals (`ℚ`).
-/

/-- Embedding of JavaScript `String.prototype.split` on a single-character
separator, at the level of character lists: `"".split(",")` is `[""]`. -/
def splitChars (sep : Char) : List Char → List (List Char)
  | [] => [[]]
  | c :: cs =>
    if c = sep then [] :: splitChars sep cs
    else
      match splitChars sep cs with
      | t :: ts => (c :: t) :: ts
      | [] => [[c]]

/-- JavaScript `s.split(',')`. -/
def jsSplitComma (s : String) : List String :=
  (splitChars ',' s.toList).map (fun l => String.mk l)

/-- JavaScript `s.trim()` (whitespace at either end removed). -/
def jsTrim (s : String) : String :=
  String.mk (((s.toList.dropWhile Char.isWhitespace).reverse.dropWhile
    Char.isWhitespace).reverse)

/-- Byte-wise lexicographic strict order on character lists, as Go compares
the keys handed to `GetStateByRange`. -/
def charListLt : List Char → List Char → Bool
  | [], [] => false
  | [], _ :: _ => true
  | _ :: _, [] => false
  | a :: as, b :: bs =>
    if a.toNat < b.toNat then true
    else if a.toNat = b.toNat then charListLt as bs
    else false

/-- Lexicographic strict order on strings. -/
def strLt (a b : String) : Bool := charListLt a.toList b.toList

/-- Lexicographic order on strings. -/
def strLe (a b : String) : Bool := strLt a b || a == b

namespace Chain

/-- `Patient` record of the chaincode. -/
structure Patient where
  id : String
  nameHash : String
  bloodType : String
  hla : String
  organNeeded : String
  ipfsHash : String
  status : String
  hospitalId : String
  docType : String
  createdAt : String
deriving DecidableEq

/-- `Donor` record of the chaincode.  `organsAvailable = none` models a JSON
`null` / Go `nil` slice in the stored record. -/
structure Donor where
  id : String
  name : String
  email : String
  phone : String
  bloodType : String
  hla : String
  organsAvailable : Option (List String)
  ipfsHash : String
  consentHash : String
  verificationStatus : String
  verifiedBy : String
  docType : String
  createdAt : String
deriving DecidableEq

/-- `Match` record of the chaincode. -/
structure Match where
  id : String
  patientId : String
  donorId : String
  organType : String
  hlaScore : String
  status : String
  docType : String
  createdAt : String
  approvedBy : String
deriving DecidableEq

/-- `Hospital` record of the chaincode. -/
structure Hospital where
  id : String
  name : String
  passwordHash : String
  location : String
  docType : String
  createdAt : String
  isActive : Bool
deriving DecidableEq

/-- A value stored in the world state (one of the four record types). -/
inductive Rec where
  | pat (p : Patient)
  | don (d : Donor)
  | hosp (h : Hospital)
  | mat (m : Match)
deriving DecidableEq

/-- The world state: an association list of key/record pairs. -/
abbrev Store := List (String × Rec)

/-- `GetState`: first record stored under a key. -/
def getState (s : Store) (k : String) : Option Rec :=
  (s.find? (fun kv => kv.1 == k)).map (fun kv => kv.2)

/-- `PutState`: replace the record stored under a key. -/
def putState (s : Store) (k : String) (v : Rec) : Store :=
  (k, v) :: s.filter (fun kv => !(kv.1 == k))

/-- `RecordExists`: point read, any record type counts. -/
def recordExists (s : Store) (id : String) : Bool :=
  (getState s id).isSome

/-- Key range `[lo, hi)` of `GetStateByRange`. -/
def keyInRange (lo hi k : String) : Bool :=
  strLe lo k && strLt k hi

/-- `CreatePatient`: fails when the id is taken, else stores a fresh WAITING
patient stamped `now`. -/
def CreatePatient (s : Store) (now id nameHash bloodType hla organNeeded
    ipfsHash hospitalId : String) : Except String Store :=
  if recordExists s id then
    .error ("patient " ++ id ++ " already exists")
  else
    .ok (putState s id (.pat
      { id := id, nameHash := nameHash, bloodType := bloodType, hla := hla,
        organNeeded := organNeeded, ipfsHash := ipfsHash, status := "WAITING",
        hospitalId := hospitalId, docType := "patient", createdAt := now }))

/-- `CreateDonor`: fails when the id is taken, else stores a fresh
PENDING_VERIFICATION donor.  `organsAvailable` is the JSON-decoded value of
the `organsAvailableJSON` argument (`"null"` decodes to `none`). -/
def CreateDonor (s : Store) (now id name email phone bloodType hla : String)
    (organsAvailable : Option (List String)) (ipfsHash consentHash : String) :
    Except String Store :=
  if recordExists s id then
    .error ("donor " ++ id ++ " already exists")
  else
    .ok (putState s id (.don
      { id := id, name := name, email := email, phone := phone,
        bloodType := bloodType, hla := hla,
        organsAvailable := organsAvailable, ipfsHash := ipfsHash,
        consentHash := consentHash,
        verificationStatus := "PENDING_VERIFICATION", verifiedBy := "",
        docType := "donor", createdAt := now }))

/-- `GetDonor` normalises a `nil` organ slice to the empty list before
returning the record. -/
def normalizeOrgans (d : Donor) : Donor :=
  { d with organsAvailable := some (d.organsAvailable.getD []) }

/-- `GetDonor`: point read of a donor record, organ list normalised. -/
def GetDonor (s : Store) (id : String) : Except String Donor :=
  match getState s id with
  | some (.don d) => .ok (normalizeOrgans d)
  | _ => .error ("donor " ++ id ++ " does not exist")

/-- `GetPatient`: point read of a patient record. -/
def GetPatient (s : Store) (id : String) : Except String Patient :=
  match getState s id with
  | some (.pat p) => .ok p
  | _ => .error ("patient " ++ id ++ " does not exist")

/-- `GetHospital`: point read of a hospital record. -/
def GetHospital (s : Store) (id : String) : Except String Hospital :=
  match getState s id with
  | some (.hosp h) => .ok h
  | _ => .error ("hospital " ++ id ++ " does not exist")

/-- `VerifyDonor`: fetch the donor, validate the decision, store the decided
record (the fetched record has its organ list normalised). -/
def VerifyDonor (s : Store) (donorId hospitalId status : String) :
    Except String Store :=
  match GetDonor s donorId with
  | .error e => .error e
  | .ok donor =>
    if status != "VERIFIED" && status != "REJECTED" then
      .error "invalid status: must be VERIFIED or REJECTED"
    else
      .ok (putState s donorId (.don
        { donor with verificationStatus := status, verifiedBy := hospitalId }))

/-- `UpdateDonorStatus`: remove every occurrence of one organ from the
donor's (normalised) organ list. -/
def UpdateDonorStatus (s : Store) (id organToRemove : String) :
    Except String Store :=
  match GetDonor s id with
  | .error e => .error e
  | .ok donor =>
    .ok (putState s id (.don
      { donor with
        organsAvailable :=
          some ((donor.organsAvailable.getD []).filter
            (fun organ => organ != organToRemove)) }))

/-- `CreateMatch`: build the match, set the patient's status to MATCHED when
a patient record is stored under `patientId`, then store the match under
`id` — with no existence check and no eligibility check. -/
def CreateMatch (s : Store) (now id patientId donorId organType hlaScore
    approvedBy : String) : Except String Store :=
  let m : Match :=
    { id := id, patientId := patientId, donorId := donorId,
      organType := organType, hlaScore := hlaScore, status := "PENDING",
      docType := "match", createdAt := now, approvedBy := approvedBy }
  let s1 : Store :=
    match getState s patientId with
    | some (.pat p) => putState s patientId (.pat { p with status := "MATCHED" })
    | _ => s
  .ok (putState s1 id (.mat m))

/-- `UpdatePatientStatus`: overwrite the patient's status field. -/
def UpdatePatientStatus (s : Store) (id status : String) :
    Except String Store :=
  match GetPatient s id with
  | .error e => .error e
  | .ok patient => .ok (putState s id (.pat { patient with status := status }))

/-- Public hospital profile returned by a successful authentication
(`{id, name, location}` in the source — no credential field). -/
structure HospitalProfile where
  id : String
  name : String
  location : String
deriving DecidableEq

/-- `AuthenticateHospital`: not found, inactive and wrong-hash rejections, in
the source's order; success returns the public profile only. -/
def AuthenticateHospital (s : Store) (id passwordHash : String) :
    Except String HospitalProfile :=
  match GetHospital s id with
  | .error _ => .error "authentication failed: hospital not found"
  | .ok hospital =>
    if hospital.isActive = false then
      .error "authentication failed: hospital is not active"
    else if hospital.passwordHash != passwordHash then
      .error "authentication failed: invalid credentials"
    else
      .ok { id := hospital.id, name := hospital.name,
            location := hospital.location }

/-- `GetAllHospitals`: every hospital record in the `HOSP-` range, full
record — the stored credential hash included. -/
def GetAllHospitals (s : Store) : List Hospital :=
  s.filterMap (fun kv =>
    if keyInRange "HOSP-" "HOSP-~" kv.1 then
      match kv.2 with
      | .hosp h => some h
      | _ => none
    else none)

/-- `GetAllDonors`: every donor record in the `DON-` range, organ list
normalised. -/
def GetAllDonors (s : Store) : List Donor :=
  s.filterMap (fun kv =>
    if keyInRange "DON-" "DON-~" kv.1 then
      match kv.2 with
      | .don d => some (normalizeOrgans d)
      | _ => none
    else none)

/-- A key deleted by `ClearLedger` (the three entity ranges). -/
def clearedKey (k : String) : Bool :=
  keyInRange "PAT-" "PAT-~" k || keyInRange "DON-" "DON-~" k ||
    keyInRange "MATCH-" "MATCH-~" k

/-- `ClearLedger`: delete every key of the three entity ranges. -/
def ClearLedger (s : Store) : Except String Store :=
  .ok (s.filter (fun kv => !(clearedKey kv.1)))

/-- The state-mutating core operations (the §6 surface of the spec). -/
inductive Op where
  | createPatient (now id nameHash bloodType hla organNeeded ipfsHash
      hospitalId : String)
  | createDonor (now id name email phone bloodType hla : String)
      (organsAvailable : Option (List String)) (ipfsHash consentHash : String)
  | verifyDonor (donorId hospitalId status : String)
  | updateDonorStatus (id organToRemove : String)
  | createMatch (now id patientId donorId organType hlaScore
      approvedBy : String)
  | updatePatientStatus (id status : String)
  | clearLedger

/-- Run one operation against the store. -/
def runOp (op : Op) (s : Store) : Except String Store :=
  match op with
  | .createPatient now id nameHash bloodType hla organNeeded ipfsHash
      hospitalId =>
    CreatePatient s now id nameHash bloodType hla organNeeded ipfsHash
      hospitalId
  | .createDonor now id name email phone bloodType hla organsAvailable
      ipfsHash consentHash =>
    CreateDonor s now id name email phone bloodType hla organsAvailable
      ipfsHash consentHash
  | .verifyDonor donorId hospitalId status => VerifyDonor s donorId hospitalId status
  | .updateDonorStatus id organToRemove => UpdateDonorStatus s id organToRemove
  | .createMatch now id patientId donorId organType hlaScore approvedBy =>
    CreateMatch s now id patientId donorId organType hlaScore approvedBy
  | .updatePatientStatus id status => UpdatePatientStatus s id status
  | .clearLedger => ClearLedger s

/-- Resulting store of an operation (a failed operation commits nothing). -/
def exec (op : Op) (s : Store) : Store :=
  match runOp op s with
  | .ok s1 => s1
  | .error _ => s

end Chain

namespace Front

/-- Blood type compatibility chart of the frontend: for each recipient type,
the donor types it can receive from (`map[recipientType]?.includes(donorType)
|| false`). -/
def canReceiveFrom (recipientType donorType : String) : Bool :=
  let map : List (String × List String) :=
    [("O-", ["O-"]),
     ("O+", ["O+", "O-"]),
     ("A-", ["A-", "O-"]),
     ("A+", ["A+", "A-", "O+", "O-"]),
     ("B-", ["B-", "O-"]),
     ("B+", ["B+", "B-", "O+", "O-"]),
     ("AB-", ["AB-", "A-", "B-", "O-"]),
     ("AB+", ["AB+", "AB-", "A+", "A-", "B+", "B-", "O+", "O-"])]
  (((map.find? (fun kv => kv.1 == recipientType)).map
    (fun kv => kv.2)).getD []).contains donorType

/-- The eight ABO/Rh blood types. -/
def bloodTypes : List String :=
  ["O-", "O+", "A-", "A+", "B-", "B+", "AB-", "AB+"]

/-- Patient fields read by the matching algorithm (`createdAt` enters the
scoring as the derived `daysWaiting` argument). -/
structure Patient where
  bloodType : String
  hla : String
  organNeeded : String
deriving DecidableEq

/-- Donor fields read by the matching algorithm; `organsAvailable = none`
models a JSON `null` (guarded in the source by `donor.organsAvailable || []`). -/
structure Donor where
  id : String
  bloodType : String
  hla : String
  verificationStatus : String
  organsAvailable : Option (List String)
deriving DecidableEq

/-- `(hla || '').split(',').map(s => s.trim())`. -/
def hlaTokens (s : String) : List String :=
  (jsSplitComma s).map jsTrim

/-- The HLA component of `runMatching`:
`(commonAntigens.length / Math.max(patientHla.length, 1)) * 100`. -/
def hlaRawScore (patient : Patient) (donor : Donor) : ℚ :=
  let patientHla := hlaTokens patient.hla
  let donorHla := hlaTokens donor.hla
  let commonAntigens := patientHla.filter (fun antigen => donorHla.contains antigen)
  ((commonAntigens.length : ℚ) / ((max patientHla.length 1 : ℕ) : ℚ)) * 100

/-- The waitlist component of `runMatching`:
`Math.min(daysWaiting / 30, 1) * 100`. -/
def waitlistScore (daysWaiting : ℚ) : ℚ :=
  min (daysWaiting / 30) 1 * 100

/-- One ranked candidate produced by `runMatching` (numeric fields kept as
exact rationals; the source renders `score`/`hlaScore` with `toFixed` for
display only). -/
structure MatchResult where
  donorId : String
  bloodType : String
  score : ℚ
  hlaScore : ℚ
  common : ℕ
  compatible : Bool
  reason : String

/-- The per-donor body of `runMatching`: eligibility checks, weighted score
and reason code for one (patient, donor) pair. -/
def matchEntry (patient : Patient) (daysWaiting : ℚ) (donor : Donor) :
    MatchResult :=
  let isVerified := donor.verificationStatus == "VERIFIED"
  let isBloodCompatible := canReceiveFrom patient.bloodType donor.bloodType
  let isExactBloodMatch := patient.bloodType == donor.bloodType
  let isOrganCompatible :=
    (donor.organsAvailable.getD []).contains patient.organNeeded
  let commonAntigens :=
    (hlaTokens patient.hla).filter
      (fun antigen => (hlaTokens donor.hla).contains antigen)
  let totalScore : ℚ :=
    if isBloodCompatible && isOrganCompatible && isVerified then
      hlaRawScore patient donor * 0.6 + waitlistScore daysWaiting * 0.3 +
        (if isExactBloodMatch then 10 else 0)
    else 0
  { donorId := donor.id, bloodType := donor.bloodType, score := totalScore,
    hlaScore := hlaRawScore patient donor, common := commonAntigens.length,
    compatible := isBloodCompatible && isOrganCompatible && isVerified,
    reason :=
      if !isVerified then "Donor Not Verified"
      else if !isBloodCompatible then "Blood Mismatch"
      else if !isOrganCompatible then "Organ Mismatch"
      else "Compatible" }

end Front

namespace Chain

/-- Filtering out one key leaves lookups of every other key unchanged. -/
theorem find?_key_filter (s : Store) (k k' : String) (h : k' ≠ k) :
    (s.filter (fun kv => !(kv.1 == k))).find? (fun kv => kv.1 == k') =
      s.find? (fun kv => kv.1 == k') := by
  induction s with
  | nil => rfl
  | cons a t ih =>
    by_cases h1 : a.1 = k
    · have b1 : (a.1 == k) = true := beq_iff_eq.mpr h1
      have b2 : (a.1 == k') = false := by
        refine beq_eq_false_iff_ne.mpr ?_
        rw [h1]
        exact fun he => h he.symm
      simp only [List.filter, List.find?, b1, b2, Bool.not_true]
      exact ih
    · have b1 : (a.1 == k) = false := beq_eq_false_iff_ne.mpr h1
      by_cases h2 : a.1 = k'
      · have b2 : (a.1 == k') = true := beq_iff_eq.mpr h2
        simp only [List.filter, List.find?, b1, b2, Bool.not_false]
      · have b2 : (a.1 == k') = false := beq_eq_false_iff_ne.mpr h2
        simp only [List.filter, List.find?, b1, b2, Bool.not_false]
        exact ih

/-- Point-read/point-write law of the store. -/
theorem getState_putState (s : Store) (k k' : String) (v : Rec) :
    getState (putState s k v) k' =
      if k' = k then some v else getState s k' := by
  by_cases h : k' = k
  · have b1 : (k == k') = true := beq_iff_eq.mpr h.symm
    simp only [getState, putState, List.find?, b1, if_pos h, Option.map_some']
  · have b1 : (k == k') = false := beq_eq_false_iff_ne.mpr (fun he => h he.symm)
    simp only [getState, putState, List.find?, b1, if_neg h,
      find?_key_filter s k k' h]

/-- Reads against a key-filtered store. -/
theorem getState_filter_key (s : Store) (p : String → Bool) (k : String) :
    getState (s.filter (fun kv => p kv.1)) k =
      if p k then getState s k else none := by
  induction s with
  | nil => simp [getState]
  | cons a t ih =>
    by_cases h1 : a.1 = k
    · by_cases h2 : p k
      · have b1 : (a.1 == k) = true := beq_iff_eq.mpr h1
        have b2 : p a.1 = true := by rw [h1]; exact h2
        simp only [getState, List.filter, List.find?, b1, b2, if_pos h2,
          Option.map_some']
      · have b2 : p a.1 = false := by
          rw [h1]
          exact Bool.not_eq_true _ ▸ eq_false_of_ne_true h2
        simp only [getState] at ih
        simp only [getState, List.filter, b2, ih, if_neg h2]
    · have b1 : (a.1 == k) = false := beq_eq_false_iff_ne.mpr h1
      simp only [getState] at ih
      by_cases h2 : p a.1
      · simp only [getState, List.filter, List.find?, h2, b1, ih]
      · have b2 : p a.1 = false := eq_false_of_ne_true h2
        simp only [getState, List.filter, b2, ih]
        by_cases h3 : p k
        · rw [if_pos h3, if_pos h3, List.find?_cons_of_neg _ (by simp [b1])]
        · rw [if_neg h3, if_neg h3]

end Chain

/-- Claim C8: over the 8 ABO/Rh types, an O− donor is compatible with every
recipient type, an AB+ recipient is compatible with every donor type, and
every exact-type pair (recipient T, donor T) is compatible. -/
theorem canReceiveFrom_table_complete :
    (Front.bloodTypes.all fun r => Front.canReceiveFrom r "O-") = true ∧
    (Front.bloodTypes.all fun d => Front.canReceiveFrom "AB+" d) = true ∧
    (Front.bloodTypes.all fun t => Front.canReceiveFrom t t) = true := by
  decide

/-- Claim C3: a pair with an unverified donor is never eligible, whatever the
HLA, blood and organ data; and every ineligible pair scores 0. -/
theorem matchEntry_unverified_ineligible (p : Front.Patient) (w : ℚ)
    (d : Front.Donor) :
    (d.verificationStatus ≠ "VERIFIED" →
      (Front.matchEntry p w d).compatible = false) ∧
    ((Front.matchEntry p w d).compatible = false →
      (Front.matchEntry p w d).score = 0) := by
  constructor
  · intro h
    have b : (d.verificationStatus == "VERIFIED") = false :=
      beq_eq_false_iff_ne.mpr h
    simp [Front.matchEntry, b]
  · intro h
    simp only [Front.matchEntry] at h ⊢
    simp only [h]
    simp

/-- Witness for C3 at a concrete pending-verification donor whose blood,
HLA and organ data all match the patient. -/
theorem matchEntry_unverified_ineligible_witness :
    (Front.matchEntry ⟨"A+", "A2", "Kidney"⟩ 5
      ⟨"DON-1", "A+", "A2", "PENDING_VERIFICATION", some ["Kidney"]⟩).compatible
        = false ∧
    (Front.matchEntry ⟨"A+", "A2", "Kidney"⟩ 5
      ⟨"DON-1", "A+", "A2", "PENDING_VERIFICATION", some ["Kidney"]⟩).score
        = 0 := by
  have h := matchEntry_unverified_ineligible ⟨"A+", "A2", "Kidney"⟩ 5
    ⟨"DON-1", "A+", "A2", "PENDING_VERIFICATION", some ["Kidney"]⟩
  exact ⟨h.1 (by decide), h.2 (h.1 (by decide))⟩

/-- The HLA component always lies in [0, 100]: the common-token count is at
most the patient token count, which is at most the clamped denominator. -/
theorem hlaRawScore_bounds (p : Front.Patient) (d : Front.Donor) :
    0 ≤ Front.hlaRawScore p d ∧ Front.hlaRawScore p d ≤ 100 := by
  have key : ∀ pl dl : List String,
      0 ≤ ((pl.filter (fun a => dl.contains a)).length : ℚ) /
          ((max pl.length 1 : ℕ) : ℚ) * 100 ∧
      ((pl.filter (fun a => dl.contains a)).length : ℚ) /
          ((max pl.length 1 : ℕ) : ℚ) * 100 ≤ 100 := by
    intro pl dl
    have hm : (0 : ℚ) < ((max pl.length 1 : ℕ) : ℚ) := by
      have h1 : (1 : ℕ) ≤ max pl.length 1 := le_max_right _ _
      exact_mod_cast Nat.lt_of_lt_of_le Nat.zero_lt_one h1
    have hc : ((pl.filter (fun a => dl.contains a)).length : ℚ) ≤
        ((max pl.length 1 : ℕ) : ℚ) := by
      have h1 : (pl.filter (fun a => dl.contains a)).length ≤ pl.length :=
        List.length_filter_le _ _
      exact_mod_cast le_trans h1 (le_max_left _ _)
    constructor
    · exact mul_nonneg (div_nonneg (by positivity) (le_of_lt hm)) (by norm_num)
    · calc ((pl.filter (fun a => dl.contains a)).length : ℚ) /
            ((max pl.length 1 : ℕ) : ℚ) * 100
          ≤ 1 * 100 :=
            mul_le_mul_of_nonneg_right ((div_le_one hm).mpr hc) (by norm_num)
      _ = 100 := one_mul 100
  simpa [Front.hlaRawScore] using
    key (Front.hlaTokens p.hla) (Front.hlaTokens d.hla)

/-- Counterexample for C6: with an empty patient `hla` and an empty donor
`hla`, JavaScript splitting yields one empty token on each side, so the HLA
raw score is 100, not the 0 the claim requires for an empty hla field. -/
theorem hlaRawScore_empty_hla_cex :
    Front.hlaRawScore ⟨"A+", "", "Kidney"⟩
      ⟨"DON-1", "O-", "", "VERIFIED", some ["Kidney"]⟩ = 100 ∧
    (100 : ℚ) ≠ 0 := by
  constructor
  · have h : Front.hlaTokens "" = [""] := by decide
    have h2 : (Front.hlaTokens "").filter
        (fun a => (Front.hlaTokens "").contains a) = [""] := by decide
    simp only [Front.hlaRawScore, h, h2]
    norm_num
  · norm_num

/-- Claim C6 (amended): the HLA raw score is always in [0, 100]; splitting an
empty `hla` field yields the single empty token (count 1, never 0), so for an
empty patient `hla` the raw score is 100 when the donor's token list contains
the empty token and 0 otherwise. -/
theorem hlaRawScore_bounds_and_empty (p : Front.Patient) (d : Front.Donor) :
    0 ≤ Front.hlaRawScore p d ∧ Front.hlaRawScore p d ≤ 100 ∧
    (p.hla = "" →
      Front.hlaRawScore p d =
        if (Front.hlaTokens d.hla).contains "" then 100 else 0) := by
  refine ⟨(hlaRawScore_bounds p d).1, (hlaRawScore_bounds p d).2, ?_⟩
  intro h
  have ht : Front.hlaTokens p.hla = [""] := by rw [h]; decide
  by_cases hc : (Front.hlaTokens d.hla).contains ""
  · have hm : "" ∈ Front.hlaTokens d.hla := by simpa using hc
    simp only [Front.hlaRawScore, ht, hc, if_true]
    simp [List.filter, hm]
  · have hm : "" ∉ Front.hlaTokens d.hla := by simpa using hc
    simp only [Front.hlaRawScore, ht, hc, if_false]
    simp [List.filter, hm]

/-- Witness for C6 at a patient with an empty `hla` field and a donor with a
nonempty one (no empty token on the donor side, so the raw score is 0). -/
theorem hlaRawScore_bounds_and_empty_witness :
    0 ≤ Front.hlaRawScore ⟨"A+", "", "Kidney"⟩
        ⟨"DON-1", "O-", "A2, B7", "VERIFIED", some ["Kidney"]⟩ ∧
    Front.hlaRawScore ⟨"A+", "", "Kidney"⟩
        ⟨"DON-1", "O-", "A2, B7", "VERIFIED", some ["Kidney"]⟩ ≤ 100 ∧
    Front.hlaRawScore ⟨"A+", "", "Kidney"⟩
        ⟨"DON-1", "O-", "A2, B7", "VERIFIED", some ["Kidney"]⟩ =
      if (Front.hlaTokens "A2, B7").contains "" then 100 else 0 := by
  have h := hlaRawScore_bounds_and_empty ⟨"A+", "", "Kidney"⟩
    ⟨"DON-1", "O-", "A2, B7", "VERIFIED", some ["Kidney"]⟩
  exact ⟨h.1, h.2.1, h.2.2 rfl⟩

/-- Claim C7: for eligible pairs the total is
`HLA_raw*0.6 + (min(daysWaiting/30,1)*100)*0.3 + bonus`, the bonus being a
flat 10 exactly on identical blood types; and the total never exceeds 100. -/
theorem matchEntry_total_formula (p : Front.Patient) (w : ℚ)
    (d : Front.Donor) :
    ((Front.matchEntry p w d).compatible = true →
      (Front.matchEntry p w d).score =
        Front.hlaRawScore p d * 0.6 + Front.waitlistScore w * 0.3 +
          (if p.bloodType = d.bloodType then 10 else 0)) ∧
    (Front.matchEntry p w d).score ≤ 100 := by
  have hw : Front.waitlistScore w ≤ 100 := by
    unfold Front.waitlistScore
    calc min (w / 30) 1 * 100 ≤ 1 * 100 :=
          mul_le_mul_of_nonneg_right (min_le_right _ _) (by norm_num)
    _ = 100 := one_mul 100
  constructor
  · intro h
    simp only [Front.matchEntry] at h ⊢
    simp only [h, if_true]
    simp
  · have hb := hlaRawScore_bounds p d
    have hbonus :
        (if (p.bloodType == d.bloodType) then (10 : ℚ) else 0) ≤ 10 := by
      split <;> norm_num
    simp only [Front.matchEntry]
    split
    · linarith [hb.2, hw, hbonus]
    · norm_num

/-- Witness for C7 at the spec's concrete scenario: an A+ patient, 30 days
waiting, against a verified O− donor with identical HLA tokens. -/
theorem matchEntry_total_formula_witness :
    (Front.matchEntry ⟨"A+", "A2, A24", "Kidney"⟩ 30
      ⟨"DON-101", "O-", "A2, A24", "VERIFIED", some ["Kidney", "Liver"]⟩).score =
        Front.hlaRawScore ⟨"A+", "A2, A24", "Kidney"⟩
            ⟨"DON-101", "O-", "A2, A24", "VERIFIED", some ["Kidney", "Liver"]⟩
            * 0.6 +
          Front.waitlistScore 30 * 0.3 +
          (if ("A+" : String) = "O-" then 10 else 0) ∧
    (Front.matchEntry ⟨"A+", "A2, A24", "Kidney"⟩ 30
      ⟨"DON-101", "O-", "A2, A24", "VERIFIED",
        some ["Kidney", "Liver"]⟩).score ≤ 100 := by
  have h := matchEntry_total_formula ⟨"A+", "A2, A24", "Kidney"⟩ 30
    ⟨"DON-101", "O-", "A2, A24", "VERIFIED", some ["Kidney", "Liver"]⟩
  exact ⟨h.1 (by decide), h.2⟩

namespace Chain

/-- Sample active hospital for concrete instantiations. -/
def hospActive : Hospital :=
  { id := "HOSP-1", name := "Apollo Hospital", passwordHash := "pw-hash",
    location := "Mumbai", docType := "hospital", createdAt := "t0",
    isActive := true }

/-- Sample inactive hospital for concrete instantiations. -/
def hospInactive : Hospital :=
  { hospActive with id := "HOSP-2", isActive := false }

end Chain

/-- Claim C4 (amended): authentication fails whenever the hospital is absent,
inactive (even with the correct hash), or the stored hash differs from the
supplied one, and on success returns exactly the public profile (id, name,
location) with no credential field; however the chaincode's bulk hospital
listing returns full records, stored credential hash included — only the
HTTP layer strips it. -/
theorem authenticateHospital_contract :
    (∀ s id ph e, Chain.GetHospital s id = .error e →
      Chain.AuthenticateHospital s id ph =
        .error "authentication failed: hospital not found") ∧
    (∀ s id ph h, Chain.GetHospital s id = .ok h → h.isActive = false →
      Chain.AuthenticateHospital s id ph =
        .error "authentication failed: hospital is not active") ∧
    (∀ s id ph h, Chain.GetHospital s id = .ok h → h.isActive = true →
      h.passwordHash ≠ ph →
      Chain.AuthenticateHospital s id ph =
        .error "authentication failed: invalid credentials") ∧
    (∀ s id ph h, Chain.GetHospital s id = .ok h → h.isActive = true →
      h.passwordHash = ph →
      Chain.AuthenticateHospital s id ph =
        .ok { id := h.id, name := h.name, location := h.location }) := by
  refine ⟨?_, ?_, ?_, ?_⟩
  · intro s id ph e he
    simp [Chain.AuthenticateHospital, he]
  · intro s id ph h hok ha
    simp [Chain.AuthenticateHospital, hok, ha]
  · intro s id ph h hok ha hne
    simp [Chain.AuthenticateHospital, hok, ha, hne]
  · intro s id ph h hok ha hpw
    simp [Chain.AuthenticateHospital, hok, ha, hpw]

/-- Witness for C4: the four authentication outcomes at concrete stores. -/
theorem authenticateHospital_contract_witness :
    Chain.AuthenticateHospital [("HOSP-1", Chain.Rec.hosp Chain.hospActive)]
        "HOSP-1" "pw-hash" =
      .ok { id := "HOSP-1", name := "Apollo Hospital", location := "Mumbai" } ∧
    Chain.AuthenticateHospital [("HOSP-2", Chain.Rec.hosp Chain.hospInactive)]
        "HOSP-2" "pw-hash" =
      .error "authentication failed: hospital is not active" ∧
    Chain.AuthenticateHospital ([] : Chain.Store) "HOSP-9" "pw-hash" =
      .error "authentication failed: hospital not found" ∧
    Chain.AuthenticateHospital [("HOSP-1", Chain.Rec.hosp Chain.hospActive)]
        "HOSP-1" "wrong" =
      .error "authentication failed: invalid credentials" := by
  have h := authenticateHospital_contract
  refine ⟨?_, ?_, ?_, ?_⟩
  · exact h.2.2.2 _ _ _ Chain.hospActive rfl rfl rfl
  · exact h.2.1 _ _ _ Chain.hospInactive rfl rfl
  · exact h.1 _ _ "pw-hash" ("hospital " ++ "HOSP-9" ++ " does not exist") rfl
  · exact h.2.2.1 _ _ _ Chain.hospActive rfl rfl (by decide)

/-- Counterexample for C4: the chaincode's bulk hospital listing surfaces the
stored credential hash of every hospital record. -/
theorem getAllHospitals_includes_credentials_cex :
    (Chain.GetAllHospitals
        [("HOSP-1", Chain.Rec.hosp
          { id := "HOSP-1", name := "Apollo Hospital",
            passwordHash := "15da1cc6", location := "Mumbai",
            docType := "hospital", createdAt := "t0",
            isActive := true })]).map Chain.Hospital.passwordHash =
      ["15da1cc6"] ∧ ("15da1cc6" : String) ≠ "" := by
  exact ⟨by decide, by decide⟩

namespace Chain

/-- Sample waiting patient. -/
def patSample : Patient :=
  { id := "PAT-7", nameHash := "nh", bloodType := "A+", hla := "A2, A24",
    organNeeded := "Kidney", ipfsHash := "QmX", status := "WAITING",
    hospitalId := "HOSP-1", docType := "patient", createdAt := "t0" }

/-- Sample match record. -/
def matSample : Match :=
  { id := "MATCH-1", patientId := "PAT-A", donorId := "DON-A",
    organType := "Kidney", hlaScore := "90", status := "PENDING",
    docType := "match", createdAt := "t0", approvedBy := "HOSP-1" }

/-- Sample verified donor. -/
def donSample : Donor :=
  { id := "DON-1", name := "n", email := "e", phone := "p", bloodType := "O-",
    hla := "A2", organsAvailable := some ["Kidney", "Liver"], ipfsHash := "QmD",
    consentHash := "c", verificationStatus := "VERIFIED",
    verifiedBy := "HOSP-1", docType := "donor", createdAt := "t0" }

/-- Sample donor stored with a null organ list. -/
def donNull : Donor := { donSample with id := "DON-2", organsAvailable := none }

/-- The patient-update block of `CreateMatch`, named for proofs. -/
def patientUpd (s : Store) (patientId : String) : Store :=
  match getState s patientId with
  | some (.pat p) => putState s patientId (.pat { p with status := "MATCHED" })
  | _ => s

/-- `CreateMatch` decomposed: patient update first, then the match write. -/
theorem CreateMatch_eq (s : Store) (now id patientId donorId organType
    hlaScore approvedBy : String) :
    CreateMatch s now id patientId donorId organType hlaScore approvedBy =
      .ok (putState (patientUpd s patientId) id (.mat
        { id := id, patientId := patientId, donorId := donorId,
          organType := organType, hlaScore := hlaScore, status := "PENDING",
          docType := "match", createdAt := now, approvedBy := approvedBy })) :=
  rfl

/-- Reads against the patient-update block. -/
theorem getState_patientUpd (s : Store) (pid k : String) :
    getState (patientUpd s pid) k =
      match getState s pid with
      | some (.pat p) =>
        if k = pid then some (.pat { p with status := "MATCHED" })
        else getState s k
      | _ => getState s k := by
  unfold patientUpd
  cases hp : getState s pid with
  | none => rfl
  | some r =>
    cases r with
    | pat p => rw [getState_putState]
    | don d => rfl
    | hosp h => rfl
    | mat m => rfl

end Chain

/-- Claim C1 (amended): `CreateMatch` performs no eligibility re-check and
never fails with NotEligible — it always succeeds, always writes the Match
record, leaves every donor record untouched, and sets the patient's status
to MATCHED exactly when a patient record is stored under `patientId`. -/
theorem createMatch_unconditional (s : Chain.Store)
    (now id patientId donorId organType hlaScore approvedBy : String) :
    ∃ s1, Chain.CreateMatch s now id patientId donorId organType hlaScore
        approvedBy = .ok s1 ∧
      Chain.getState s1 id = some (.mat
        { id := id, patientId := patientId, donorId := donorId,
          organType := organType, hlaScore := hlaScore, status := "PENDING",
          docType := "match", createdAt := now, approvedBy := approvedBy }) ∧
      (∀ k d, k ≠ id → Chain.getState s k = some (.don d) →
        Chain.getState s1 k = some (.don d)) ∧
      (∀ p, patientId ≠ id → Chain.getState s patientId = some (.pat p) →
        Chain.getState s1 patientId =
          some (.pat { p with status := "MATCHED" })) := by
  refine ⟨_, Chain.CreateMatch_eq s now id patientId donorId organType
    hlaScore approvedBy, ?_, ?_, ?_⟩
  · rw [Chain.getState_putState, if_pos rfl]
  · intro k d hk hd
    rw [Chain.getState_putState, if_neg hk, Chain.getState_patientUpd]
    cases hp : Chain.getState s patientId with
    | none => exact hd
    | some r =>
      cases r with
      | pat p =>
        have hne : k ≠ patientId := by
          intro he
          rw [he, hp] at hd
          cases hd
        dsimp only
        rw [if_neg hne]
        exact hd
      | don d2 => exact hd
      | hosp h2 => exact hd
      | mat m2 => exact hd
  · intro p hpid hp
    rw [Chain.getState_putState, if_neg hpid, Chain.getState_patientUpd, hp]
    dsimp only
    rw [if_pos rfl]

/-- Witness for C1: a concrete store holding one waiting patient and no
donor at all; the match is still created and the patient still flipped. -/
theorem createMatch_unconditional_witness :
    ∃ s1, Chain.CreateMatch [("PAT-7", Chain.Rec.pat Chain.patSample)] "t1"
        "MATCH-9" "PAT-7" "DON-404" "Kidney" "90" "HOSP-1" = .ok s1 ∧
      Chain.getState s1 "MATCH-9" = some (.mat
        { id := "MATCH-9", patientId := "PAT-7", donorId := "DON-404",
          organType := "Kidney", hlaScore := "90", status := "PENDING",
          docType := "match", createdAt := "t1", approvedBy := "HOSP-1" }) ∧
      Chain.getState s1 "PAT-7" =
        some (.pat { Chain.patSample with status := "MATCHED" }) := by
  obtain ⟨s1, h1, h2, h3, h4⟩ := createMatch_unconditional
    [("PAT-7", Chain.Rec.pat Chain.patSample)] "t1" "MATCH-9" "PAT-7"
    "DON-404" "Kidney" "90" "HOSP-1"
  exact ⟨s1, h1, h2, h4 Chain.patSample (by decide) rfl⟩

/-- Counterexample for C1: with the donor absent from the store (re-fetch
fails), `CreateMatch` still succeeds, writes the Match record and rewrites
the patient record — the claim requires failure with no writes at all. -/
theorem createMatch_missing_donor_cex :
    Chain.getState [("PAT-7", Chain.Rec.pat Chain.patSample)] "DON-404" =
      none ∧
    Chain.CreateMatch [("PAT-7", Chain.Rec.pat Chain.patSample)] "t1"
        "MATCH-1" "PAT-7" "DON-404" "Kidney" "90" "HOSP-1" =
      .ok [("MATCH-1", Chain.Rec.mat
          { id := "MATCH-1", patientId := "PAT-7", donorId := "DON-404",
            organType := "Kidney", hlaScore := "90", status := "PENDING",
            docType := "match", createdAt := "t1", approvedBy := "HOSP-1" }),
        ("PAT-7", Chain.Rec.pat
          { Chain.patSample with status := "MATCHED" })] :=
  ⟨rfl, rfl⟩


namespace Chain

/-- Whether an operation writes or deletes match records (`CreateMatch`
itself and the administrative bulk clear). -/
def touchesMatches : Op → Bool
  | .createMatch .. => true
  | .clearLedger => true
  | _ => false

/-- `exec` characterisation: patient creation. -/
theorem exec_createPatient (s : Store) (now id nameHash bloodType hla
    organNeeded ipfsHash hospitalId : String) :
    exec (.createPatient now id nameHash bloodType hla organNeeded ipfsHash
        hospitalId) s =
      if recordExists s id = true then s
      else putState s id (.pat
        { id := id, nameHash := nameHash, bloodType := bloodType, hla := hla,
          organNeeded := organNeeded, ipfsHash := ipfsHash,
          status := "WAITING", hospitalId := hospitalId, docType := "patient",
          createdAt := now }) := by
  by_cases he : recordExists s id = true
  · simp [exec, runOp, CreatePatient, he]
  · simp [exec, runOp, CreatePatient, he]

/-- `exec` characterisation: donor creation. -/
theorem exec_createDonor (s : Store) (now id name email phone bloodType
    hla : String) (organsAvailable : Option (List String))
    (ipfsHash consentHash : String) :
    exec (.createDonor now id name email phone bloodType hla organsAvailable
        ipfsHash consentHash) s =
      if recordExists s id = true then s
      else putState s id (.don
        { id := id, name := name, email := email, phone := phone,
          bloodType := bloodType, hla := hla,
          organsAvailable := organsAvailable, ipfsHash := ipfsHash,
          consentHash := consentHash,
          verificationStatus := "PENDING_VERIFICATION", verifiedBy := "",
          docType := "donor", createdAt := now }) := by
  by_cases he : recordExists s id = true
  · simp [exec, runOp, CreateDonor, he]
  · simp [exec, runOp, CreateDonor, he]

/-- `exec` characterisation: verification decision. -/
theorem exec_verifyDonor (s : Store) (donorId hospitalId status : String) :
    exec (.verifyDonor donorId hospitalId status) s =
      match getState s donorId with
      | some (.don d) =>
        if (status != "VERIFIED" && status != "REJECTED") = true then s
        else putState s donorId (.don
          { normalizeOrgans d with
            verificationStatus := status, verifiedBy := hospitalId })
      | _ => s := by
  cases hg : getState s donorId with
  | none => simp [exec, runOp, VerifyDonor, GetDonor, hg]
  | some r =>
    cases r with
    | don d =>
      by_cases hs : (status != "VERIFIED" && status != "REJECTED") = true
      · simp only [exec, runOp, VerifyDonor, GetDonor, hg]
        rw [if_pos hs]
        rw [if_pos hs]
      · simp only [exec, runOp, VerifyDonor, GetDonor, hg]
        rw [if_neg hs]
        rw [if_neg hs]
    | pat p => simp [exec, runOp, VerifyDonor, GetDonor, hg]
    | hosp h => simp [exec, runOp, VerifyDonor, GetDonor, hg]
    | mat m => simp [exec, runOp, VerifyDonor, GetDonor, hg]

/-- `exec` characterisation: organ removal. -/
theorem exec_updateDonorStatus (s : Store) (id organToRemove : String) :
    exec (.updateDonorStatus id organToRemove) s =
      match getState s id with
      | some (.don d) =>
        putState s id (.don
          { normalizeOrgans d with
            organsAvailable :=
              some ((d.organsAvailable.getD []).filter
                (fun organ => organ != organToRemove)) })
      | _ => s := by
  cases hg : getState s id with
  | none => simp [exec, runOp, UpdateDonorStatus, GetDonor, hg]
  | some r =>
    cases r with
    | don d =>
      simp [exec, runOp, UpdateDonorStatus, GetDonor, hg, normalizeOrgans]
    | pat p => simp [exec, runOp, UpdateDonorStatus, GetDonor, hg]
    | hosp h => simp [exec, runOp, UpdateDonorStatus, GetDonor, hg]
    | mat m => simp [exec, runOp, UpdateDonorStatus, GetDonor, hg]

/-- `exec` characterisation: patient status override. -/
theorem exec_updatePatientStatus (s : Store) (id status : String) :
    exec (.updatePatientStatus id status) s =
      match getState s id with
      | some (.pat p) => putState s id (.pat { p with status := status })
      | _ => s := by
  cases hg : getState s id with
  | none => simp [exec, runOp, UpdatePatientStatus, GetPatient, hg]
  | some r =>
    cases r with
    | pat p => simp [exec, runOp, UpdatePatientStatus, GetPatient, hg]
    | don d => simp [exec, runOp, UpdatePatientStatus, GetPatient, hg]
    | hosp h => simp [exec, runOp, UpdatePatientStatus, GetPatient, hg]
    | mat m => simp [exec, runOp, UpdatePatientStatus, GetPatient, hg]

/-- `exec` characterisation: match creation. -/
theorem exec_createMatch (s : Store) (now id patientId donorId organType
    hlaScore approvedBy : String) :
    exec (.createMatch now id patientId donorId organType hlaScore
        approvedBy) s =
      putState (patientUpd s patientId) id (.mat
        { id := id, patientId := patientId, donorId := donorId,
          organType := organType, hlaScore := hlaScore, status := "PENDING",
          docType := "match", createdAt := now, approvedBy := approvedBy }) :=
  rfl

/-- `exec` characterisation: bulk clear. -/
theorem exec_clearLedger (s : Store) :
    exec .clearLedger s = s.filter (fun kv => !(clearedKey kv.1)) :=
  rfl

end Chain

/-- Claim C2 (amended): creating a Patient over an existing ID fails with
AlreadyExists, but `CreateMatch` performs no existence check — it always
succeeds, so re-creating an existing Match ID silently overwrites the stored
record; apart from `CreateMatch` itself, no core operation other than the
administrative bulk clear ever changes or deletes a stored Match record. -/
theorem match_records_create_once :
    (∀ s now id nameHash bloodType hla organNeeded ipfsHash hospitalId,
      Chain.recordExists s id = true →
      Chain.CreatePatient s now id nameHash bloodType hla organNeeded
          ipfsHash hospitalId =
        .error ("patient " ++ id ++ " already exists")) ∧
    (∀ s now id patientId donorId organType hlaScore approvedBy, ∃ s1,
      Chain.CreateMatch s now id patientId donorId organType hlaScore
        approvedBy = .ok s1) ∧
    (∀ op s k m, Chain.touchesMatches op = false →
      Chain.getState s k = some (.mat m) →
      Chain.getState (Chain.exec op s) k = some (.mat m)) := by
  refine ⟨?_, ?_, ?_⟩
  · intro s now id nameHash bloodType hla organNeeded ipfsHash hospitalId h
    simp [Chain.CreatePatient, h]
  · intro s now id patientId donorId organType hlaScore approvedBy
    exact ⟨_, Chain.CreateMatch_eq s now id patientId donorId organType
      hlaScore approvedBy⟩
  · intro op s k m hop hm
    cases op with
    | createPatient now id nameHash bloodType hla organNeeded ipfsHash
        hospitalId =>
      rw [Chain.exec_createPatient]
      by_cases he : Chain.recordExists s id = true
      · rw [if_pos he]
        exact hm
      · have hk : k ≠ id := by
          intro h2
          apply he
          rw [← h2]
          simp [Chain.recordExists, hm]
        rw [if_neg he, Chain.getState_putState, if_neg hk]
        exact hm
    | createDonor now id name email phone bloodType hla organsAvailable
        ipfsHash consentHash =>
      rw [Chain.exec_createDonor]
      by_cases he : Chain.recordExists s id = true
      · rw [if_pos he]
        exact hm
      · have hk : k ≠ id := by
          intro h2
          apply he
          rw [← h2]
          simp [Chain.recordExists, hm]
        rw [if_neg he, Chain.getState_putState, if_neg hk]
        exact hm
    | verifyDonor donorId hospitalId status =>
      rw [Chain.exec_verifyDonor]
      cases hg : Chain.getState s donorId with
      | none => exact hm
      | some r =>
        cases r with
        | don d =>
          have hk : k ≠ donorId := by
            intro h2
            rw [h2, hg] at hm
            cases hm
          dsimp only
          by_cases hs : (status != "VERIFIED" && status != "REJECTED") = true
          · rw [if_pos hs]
            exact hm
          · rw [if_neg hs, Chain.getState_putState, if_neg hk]
            exact hm
        | pat p => exact hm
        | hosp h2 => exact hm
        | mat m2 => exact hm
    | updateDonorStatus id organToRemove =>
      rw [Chain.exec_updateDonorStatus]
      cases hg : Chain.getState s id with
      | none => exact hm
      | some r =>
        cases r with
        | don d =>
          have hk : k ≠ id := by
            intro h2
            rw [h2, hg] at hm
            cases hm
          dsimp only
          rw [Chain.getState_putState, if_neg hk]
          exact hm
        | pat p => exact hm
        | hosp h2 => exact hm
        | mat m2 => exact hm
    | createMatch now id patientId donorId organType hlaScore approvedBy =>
      simp [Chain.touchesMatches] at hop
    | updatePatientStatus id status =>
      rw [Chain.exec_updatePatientStatus]
      cases hg : Chain.getState s id with
      | none => exact hm
      | some r =>
        cases r with
        | pat p =>
          have hk : k ≠ id := by
            intro h2
            rw [h2, hg] at hm
            cases hm
          dsimp only
          rw [Chain.getState_putState, if_neg hk]
          exact hm
        | don d => exact hm
        | hosp h2 => exact hm
        | mat m2 => exact hm
    | clearLedger => simp [Chain.touchesMatches] at hop

/-- Witness for C2: an occupied patient ID is rejected, and a patient-status
update leaves a stored match record intact. -/
theorem match_records_create_once_witness :
    Chain.CreatePatient [("PAT-7", Chain.Rec.pat Chain.patSample)] "t0"
        "PAT-7" "nh" "A+" "A2" "Kidney" "QmX" "HOSP-1" =
      .error ("patient " ++ "PAT-7" ++ " already exists") ∧
    Chain.getState (Chain.exec (Chain.Op.updatePatientStatus "PAT-7" "CURED")
        [("MATCH-1", Chain.Rec.mat Chain.matSample),
          ("PAT-7", Chain.Rec.pat Chain.patSample)]) "MATCH-1" =
      some (Chain.Rec.mat Chain.matSample) := by
  have h := match_records_create_once
  exact ⟨h.1 _ _ _ _ _ _ _ _ _ (by decide),
    h.2.2 (Chain.Op.updatePatientStatus "PAT-7" "CURED") _ "MATCH-1"
      Chain.matSample (by decide) (by decide)⟩

/-- Counterexample for C2: `CreateMatch` on an already-present match ID
succeeds and replaces the stored record (no AlreadyExists failure, prior
record gone). -/
theorem createMatch_overwrites_cex :
    Chain.CreateMatch [("MATCH-1", Chain.Rec.mat Chain.matSample)] "t2"
        "MATCH-1" "PAT-9" "DON-9" "Liver" "77" "HOSP-2" =
      .ok [("MATCH-1", Chain.Rec.mat
        { id := "MATCH-1", patientId := "PAT-9", donorId := "DON-9",
          organType := "Liver", hlaScore := "77", status := "PENDING",
          docType := "match", createdAt := "t2", approvedBy := "HOSP-2" })] ∧
    Chain.matSample.patientId ≠ "PAT-9" :=
  ⟨rfl, by decide⟩

namespace Chain

/-- Two donor reads of the same key agree. -/
theorem donor_eq_of_getState (s : Store) (k : String) (d d1 : Donor)
    (hd : getState s k = some (.don d))
    (hd1 : getState s k = some (.don d1)) : d1 = d := by
  rw [hd] at hd1
  simpa using hd1.symm

end Chain

/-- Claim C5 (amended): after creation, no core operation ever adds an entry
to a donor's organ list — every operation leaves the (null-normalised) list
unchanged or removes entries from it.  (Duplicates, however, are accepted
verbatim at creation: see the counterexample.) -/
theorem organsAvailable_monotonic (op : Chain.Op) (s : Chain.Store)
    (k : String) (d d1 : Chain.Donor) :
    Chain.getState s k = some (.don d) →
    Chain.getState (Chain.exec op s) k = some (.don d1) →
    List.Sublist (d1.organsAvailable.getD []) (d.organsAvailable.getD []) := by
  intro hd hd1
  cases op with
  | createPatient now id nameHash bloodType hla organNeeded ipfsHash
      hospitalId =>
    rw [Chain.exec_createPatient] at hd1
    by_cases he : Chain.recordExists s id = true
    · rw [if_pos he] at hd1
      rw [Chain.donor_eq_of_getState s k d d1 hd hd1]
    · rw [if_neg he, Chain.getState_putState] at hd1
      by_cases hk : k = id
      · rw [if_pos hk] at hd1
        simp at hd1
      · rw [if_neg hk] at hd1
        rw [Chain.donor_eq_of_getState s k d d1 hd hd1]
  | createDonor now id name email phone bloodType hla organsAvailable
      ipfsHash consentHash =>
    rw [Chain.exec_createDonor] at hd1
    by_cases he : Chain.recordExists s id = true
    · rw [if_pos he] at hd1
      rw [Chain.donor_eq_of_getState s k d d1 hd hd1]
    · have hk : k ≠ id := by
        intro h2
        apply he
        rw [← h2]
        simp [Chain.recordExists, hd]
      rw [if_neg he, Chain.getState_putState, if_neg hk] at hd1
      rw [Chain.donor_eq_of_getState s k d d1 hd hd1]
  | verifyDonor donorId hospitalId status =>
    rw [Chain.exec_verifyDonor] at hd1
    cases hg : Chain.getState s donorId with
    | none =>
      rw [hg] at hd1
      rw [Chain.donor_eq_of_getState s k d d1 hd hd1]
    | some r =>
      rw [hg] at hd1
      cases r with
      | don d0 =>
        dsimp only at hd1
        by_cases hs : (status != "VERIFIED" && status != "REJECTED") = true
        · rw [if_pos hs] at hd1
          rw [Chain.donor_eq_of_getState s k d d1 hd hd1]
        · rw [if_neg hs, Chain.getState_putState] at hd1
          by_cases hk : k = donorId
          · have hdd : d0 = d := by
              rw [hk] at hd
              rw [hd] at hg
              exact (by simpa using hg : d = d0).symm
            rw [if_pos hk] at hd1
            have hd1' : d1 =
                { Chain.normalizeOrgans d0 with
                  verificationStatus := status, verifiedBy := hospitalId } := by
              simpa using hd1.symm
            rw [hd1', hdd]
            simp [Chain.normalizeOrgans]
          · rw [if_neg hk] at hd1
            rw [Chain.donor_eq_of_getState s k d d1 hd hd1]
      | pat p =>
        rw [Chain.donor_eq_of_getState s k d d1 hd hd1]
      | hosp h2 =>
        rw [Chain.donor_eq_of_getState s k d d1 hd hd1]
      | mat m2 =>
        rw [Chain.donor_eq_of_getState s k d d1 hd hd1]
  | updateDonorStatus id organToRemove =>
    rw [Chain.exec_updateDonorStatus] at hd1
    cases hg : Chain.getState s id with
    | none =>
      rw [hg] at hd1
      rw [Chain.donor_eq_of_getState s k d d1 hd hd1]
    | some r =>
      rw [hg] at hd1
      cases r with
      | don d0 =>
        dsimp only at hd1
        rw [Chain.getState_putState] at hd1
        by_cases hk : k = id
        · have hdd : d0 = d := by
            rw [hk] at hd
            rw [hd] at hg
            exact (by simpa using hg : d = d0).symm
          rw [if_pos hk] at hd1
          have hd1' : d1 =
              { Chain.normalizeOrgans d0 with
                organsAvailable :=
                  some ((d0.organsAvailable.getD []).filter
                    (fun organ => organ != organToRemove)) } := by
            simpa using hd1.symm
          rw [hd1', hdd]
          simp only [Chain.normalizeOrgans, Option.getD_some]
          exact List.filter_sublist (d.organsAvailable.getD [])
        · rw [if_neg hk] at hd1
          rw [Chain.donor_eq_of_getState s k d d1 hd hd1]
      | pat p =>
        rw [Chain.donor_eq_of_getState s k d d1 hd hd1]
      | hosp h2 =>
        rw [Chain.donor_eq_of_getState s k d d1 hd hd1]
      | mat m2 =>
        rw [Chain.donor_eq_of_getState s k d d1 hd hd1]
  | createMatch now id patientId donorId organType hlaScore approvedBy =>
    rw [Chain.exec_createMatch, Chain.getState_putState] at hd1
    by_cases hk : k = id
    · rw [if_pos hk] at hd1
      simp at hd1
    · rw [if_neg hk, Chain.getState_patientUpd] at hd1
      cases hp : Chain.getState s patientId with
      | none =>
        rw [hp] at hd1
        rw [Chain.donor_eq_of_getState s k d d1 hd hd1]
      | some r =>
        rw [hp] at hd1
        cases r with
        | pat p =>
          dsimp only at hd1
          by_cases hpk : k = patientId
          · rw [if_pos hpk] at hd1
            simp at hd1
          · rw [if_neg hpk] at hd1
            rw [Chain.donor_eq_of_getState s k d d1 hd hd1]
        | don d0 =>
          rw [Chain.donor_eq_of_getState s k d d1 hd hd1]
        | hosp h2 =>
          rw [Chain.donor_eq_of_getState s k d d1 hd hd1]
        | mat m2 =>
          rw [Chain.donor_eq_of_getState s k d d1 hd hd1]
  | updatePatientStatus id status =>
    rw [Chain.exec_updatePatientStatus] at hd1
    cases hg : Chain.getState s id with
    | none =>
      rw [hg] at hd1
      rw [Chain.donor_eq_of_getState s k d d1 hd hd1]
    | some r =>
      rw [hg] at hd1
      cases r with
      | pat p =>
        dsimp only at hd1
        rw [Chain.getState_putState] at hd1
        have hk : k ≠ id := by
          intro h2
          rw [h2, hg] at hd
          cases hd
        rw [if_neg hk] at hd1
        rw [Chain.donor_eq_of_getState s k d d1 hd hd1]
      | don d0 =>
        rw [Chain.donor_eq_of_getState s k d d1 hd hd1]
      | hosp h2 =>
        rw [Chain.donor_eq_of_getState s k d d1 hd hd1]
      | mat m2 =>
        rw [Chain.donor_eq_of_getState s k d d1 hd hd1]
  | clearLedger =>
    rw [Chain.exec_clearLedger,
      Chain.getState_filter_key s (fun x => !(Chain.clearedKey x)) k] at hd1
    by_cases hcl : (!(Chain.clearedKey k)) = true
    · rw [if_pos hcl] at hd1
      rw [Chain.donor_eq_of_getState s k d d1 hd hd1]
    · rw [if_neg hcl] at hd1
      cases hd1

/-- Witness for C5: removing a kidney from a stored two-organ donor leaves a
donor whose organ list is a sublist of the prior one. -/
theorem organsAvailable_monotonic_witness :
    List.Sublist
      (({ Chain.normalizeOrgans Chain.donSample with
          organsAvailable := some ["Liver"] } : Chain.Donor).organsAvailable.getD
        [])
      (Chain.donSample.organsAvailable.getD []) :=
  organsAvailable_monotonic (Chain.Op.updateDonorStatus "DON-1" "Kidney")
    [("DON-1", Chain.Rec.don Chain.donSample)] "DON-1" Chain.donSample
    { Chain.normalizeOrgans Chain.donSample with
      organsAvailable := some ["Liver"] }
    (by decide) (by decide)

/-- Counterexample for C5: `CreateDonor` stores a caller-supplied organ list
verbatim, duplicates included — a reachable donor record whose
`organsAvailable` contains a duplicate entry. -/
theorem createDonor_duplicate_organs_cex :
    Chain.CreateDonor ([] : Chain.Store) "t0" "DON-1" "n" "e" "p" "O-" "A2"
        (some ["Kidney", "Kidney"]) "QmD" "c" =
      .ok [("DON-1", Chain.Rec.don
        { id := "DON-1", name := "n", email := "e", phone := "p",
          bloodType := "O-", hla := "A2",
          organsAvailable := some ["Kidney", "Kidney"], ipfsHash := "QmD",
          consentHash := "c", verificationStatus := "PENDING_VERIFICATION",
          verifiedBy := "", docType := "donor", createdAt := "t0" })] ∧
    ¬ (["Kidney", "Kidney"] : List String).Nodup :=
  ⟨rfl, by decide⟩

namespace Chain

/-- Writing a key twice is the same as writing it once. -/
theorem putState_putState (s : Store) (k : String) (v w : Rec) :
    putState (putState s k v) k w = putState s k w := by
  unfold putState
  congr 1
  rw [List.filter_cons_of_neg (by simp), List.filter_filter]
  simp

end Chain

/-- Claim C9 (amended): `UpdateDonorStatus` rewrites the donor to the
null-normalised record whose organ list is the prior (normalised) list with
every occurrence of the organ removed, touching no other field and no other
key; it is idempotent on the store; and when the organ is absent from the
normalised prior list the resulting organ list is exactly the normalised
prior value — so a stored null field becomes the empty list (see the
counterexample) rather than staying null. -/
theorem updateDonorStatus_removal (s : Chain.Store) (id organ : String)
    (d : Chain.Donor) :
    (Chain.getState s id = some (.don d) →
      Chain.UpdateDonorStatus s id organ =
        .ok (Chain.putState s id (.don
          { Chain.normalizeOrgans d with
            organsAvailable :=
              some ((d.organsAvailable.getD []).filter
                (fun o => o != organ)) }))) ∧
    Chain.exec (.updateDonorStatus id organ)
        (Chain.exec (.updateDonorStatus id organ) s) =
      Chain.exec (.updateDonorStatus id organ) s ∧
    (Chain.getState s id = some (.don d) →
      organ ∉ d.organsAvailable.getD [] →
      Chain.getState (Chain.exec (.updateDonorStatus id organ) s) id =
        some (.don (Chain.normalizeOrgans d))) ∧
    (∀ k, k ≠ id →
      Chain.getState (Chain.exec (.updateDonorStatus id organ) s) k =
        Chain.getState s k) := by
  refine ⟨?_, ?_, ?_, ?_⟩
  · intro hd
    simp [Chain.UpdateDonorStatus, Chain.GetDonor, hd, Chain.normalizeOrgans]
  · rw [Chain.exec_updateDonorStatus s]
    cases hg : Chain.getState s id with
    | none =>
      dsimp only
      rw [Chain.exec_updateDonorStatus, hg]
    | some r =>
      cases r with
      | don d0 =>
        dsimp only
        rw [Chain.exec_updateDonorStatus, Chain.getState_putState, if_pos rfl]
        dsimp only
        rw [Chain.putState_putState]
        congr 2
        simp [Chain.normalizeOrgans, List.filter_filter]
      | pat p =>
        dsimp only
        rw [Chain.exec_updateDonorStatus, hg]
      | hosp h2 =>
        dsimp only
        rw [Chain.exec_updateDonorStatus, hg]
      | mat m2 =>
        dsimp only
        rw [Chain.exec_updateDonorStatus, hg]
  · intro hd hnotin
    have hf : (d.organsAvailable.getD []).filter (fun o => o != organ) =
        d.organsAvailable.getD [] := by
      apply List.filter_eq_self.mpr
      intro a ha
      simp only [bne_iff_ne, ne_eq, decide_eq_true_eq]
      intro he
      exact hnotin (he ▸ ha)
    rw [Chain.exec_updateDonorStatus, hd]
    dsimp only
    rw [Chain.getState_putState, if_pos rfl, hf]
    rfl
  · intro k hk
    rw [Chain.exec_updateDonorStatus]
    cases hg : Chain.getState s id with
    | none => rfl
    | some r =>
      cases r with
      | don d0 =>
        dsimp only
        rw [Chain.getState_putState, if_neg hk]
      | pat p => rfl
      | hosp h2 => rfl
      | mat m2 => rfl

/-- Witness for C9: removing an organ from a donor stored with a null organ
list succeeds, normalises the list to empty, and matches the removal form. -/
theorem updateDonorStatus_removal_witness :
    Chain.UpdateDonorStatus [("DON-2", Chain.Rec.don Chain.donNull)] "DON-2"
        "Kidney" =
      .ok (Chain.putState [("DON-2", Chain.Rec.don Chain.donNull)] "DON-2"
        (.don
          { Chain.normalizeOrgans Chain.donNull with
            organsAvailable :=
              some ((Chain.donNull.organsAvailable.getD []).filter
                (fun o => o != "Kidney")) })) ∧
    Chain.getState (Chain.exec (Chain.Op.updateDonorStatus "DON-2" "Kidney")
        [("DON-2", Chain.Rec.don Chain.donNull)]) "DON-2" =
      some (.don (Chain.normalizeOrgans Chain.donNull)) := by
  have h := updateDonorStatus_removal [("DON-2", Chain.Rec.don Chain.donNull)]
    "DON-2" "Kidney" Chain.donNull
  exact ⟨h.1 rfl, h.2.2.1 rfl (by decide)⟩

/-- Counterexample for C9: on a donor stored with `organsAvailable = null`,
removing an organ that is not in the (empty) list does not leave the field
equal to its prior value — the stored null becomes the empty list. -/
theorem updateDonorStatus_null_cex :
    Chain.donNull.organsAvailable = none ∧
    Chain.UpdateDonorStatus [("DON-2", Chain.Rec.don Chain.donNull)] "DON-2"
        "Kidney" =
      .ok [("DON-2", Chain.Rec.don
        { Chain.donNull with organsAvailable := some [] })] ∧
    ({ Chain.donNull with organsAvailable := some ([] : List String) }) ≠
      Chain.donNull :=
  ⟨rfl, rfl, by decide⟩

/-- Claim C10: `GetDonor` and `GetAllDonors` never surface a null organ set —
a point read returns the stored donor with its organ list normalised, a
stored null field is returned as the empty list, every donor in the bulk
listing carries an actual list, and every stored in-range donor record
appears in the listing in normalised form. -/
theorem donor_reads_normalized (s : Chain.Store) (id : String)
    (d : Chain.Donor) :
    (Chain.getState s id = some (.don d) →
      Chain.GetDonor s id = .ok (Chain.normalizeOrgans d)) ∧
    (∀ d2 : Chain.Donor, d2.organsAvailable = none →
      (Chain.normalizeOrgans d2).organsAvailable = some []) ∧
    (∀ v, v ∈ Chain.GetAllDonors s → ∃ l, v.organsAvailable = some l) ∧
    (∀ k d0, (k, Chain.Rec.don d0) ∈ s →
      Chain.keyInRange "DON-" "DON-~" k = true →
      Chain.normalizeOrgans d0 ∈ Chain.GetAllDonors s) := by
  refine ⟨?_, ?_, ?_, ?_⟩
  · intro hd
    simp [Chain.GetDonor, hd]
  · intro d2 h
    simp [Chain.normalizeOrgans, h]
  · intro v hv
    simp only [Chain.GetAllDonors, List.mem_filterMap] at hv
    obtain ⟨kv, hmem, hf⟩ := hv
    by_cases hr : Chain.keyInRange "DON-" "DON-~" kv.1 = true
    · rw [if_pos hr] at hf
      cases h2 : kv.2 with
      | don d0 =>
        rw [h2] at hf
        have hveq : v = Chain.normalizeOrgans d0 := by simpa using hf.symm
        exact ⟨_, by rw [hveq]; rfl⟩
      | pat p =>
        rw [h2] at hf
        cases hf
      | hosp h3 =>
        rw [h2] at hf
        cases hf
      | mat m =>
        rw [h2] at hf
        cases hf
    · rw [if_neg hr] at hf
      cases hf
  · intro k d0 hmem hr
    simp only [Chain.GetAllDonors, List.mem_filterMap]
    exact ⟨(k, Chain.Rec.don d0), hmem, by simp [hr]⟩

/-- Witness for C10: a store holding one donor whose organ field is null;
the point read and the listing both return the empty list. -/
theorem donor_reads_normalized_witness :
    Chain.GetDonor [("DON-2", Chain.Rec.don Chain.donNull)] "DON-2" =
      .ok (Chain.normalizeOrgans Chain.donNull) ∧
    (Chain.normalizeOrgans Chain.donNull).organsAvailable = some [] ∧
    Chain.normalizeOrgans Chain.donNull ∈
      Chain.GetAllDonors [("DON-2", Chain.Rec.don Chain.donNull)] := by
  have h := donor_reads_normalized [("DON-2", Chain.Rec.don Chain.donNull)]
    "DON-2" Chain.donNull
  exact ⟨h.1 rfl, h.2.1 Chain.donNull rfl,
    h.2.2.2 "DON-2" Chain.donNull (by decide) (by decide)⟩
